import Mathlib

/-!
Shallow embedding of the MongoDB connection-lifecycle manager and store
operations of `apps/backend/app/database/mongodb.py`, together with the
sensor data model of `apps/backend/app/models/sensor.py`.

The Python class `MongoDB` keeps five class-level fields
(`client`, `database`, `_connection_lock`, `_lock_loop_id`,
`_client_loop_id`).  We model these, the environment (configuration
variables, the current asyncio event loop, the external MongoDB store and
its fault behaviour) and instrumentation counters in one explicit state
record `Sys`; every method of the class becomes a function
`Sys → Except PyErr α × Sys`.  Machine details that the claims depend on
(which exceptions are raised, which state fields are cleared on which
path, how many store calls are attempted) are translated line by line
from the source.
-/

/-- 3-axis sample (`Accelerometer` / `Gyroscope` in `sensor.py`).
Float values are carried opaquely; no arithmetic is performed on them,
so they are modelled by `Int`. -/
structure Axes where
  x : Int
  y : Int
  z : Int
deriving DecidableEq, Repr

/-- `SensorDataInput` of `sensor.py`: the validated request payload. -/
structure SensorDataInput where
  temperature : Int
  humidity : Int
  voc : Nat
  light : Nat
  sound : Nat
  accelerometer : Axes
  gyroscope : Axes
deriving DecidableEq, Repr

/-- The document built by `insert_sensor_data` (lines 180-197 of
`mongodb.py`): the input fields plus a manager-assigned UTC timestamp.
UTC instants are modelled by a `Nat` tick counter. -/
structure SensorDoc where
  timestamp : Nat
  temperature : Int
  humidity : Int
  voc : Nat
  light : Nat
  sound : Nat
  accelerometer : Axes
  gyroscope : Axes
deriving DecidableEq, Repr

/-- A document persisted in the `sensor_readings` collection: a payload
plus the server-assigned ObjectId (modelled by `Nat`; `str()` of it is
`toString`).  `valid` is `false` for a stored document that does not
conform to the `SensorDataOutput` shape (Pydantic validation fails). -/
structure StoredDoc where
  oid : Nat
  doc : SensorDoc
  valid : Bool
deriving DecidableEq, Repr

/-- `SensorDataOutput` of `sensor.py`: outward reading with the string
identifier (`_id` translated through the alias). -/
structure SensorDataOutput where
  id : Option String
  timestamp : Nat
  temperature : Int
  humidity : Int
  voc : Nat
  light : Nat
  sound : Nat
  accelerometer : Axes
  gyroscope : Axes
deriving DecidableEq, Repr

/-- Python exceptions relevant to `mongodb.py`, tagged by class. -/
inductive PyErr where
  /-- `ValueError("MONGODB_URL environment variable is not set")`, line 50. -/
  | valueErrorUrlMissing
  /-- `RuntimeError` whose message contains "loop is closed". -/
  | runtimeLoopClosed
  /-- `RuntimeError("Cannot create connection lock: no running event loop")`, line 39. -/
  | runtimeNoLoop
  /-- some other `RuntimeError` (message does not mention a closed loop). -/
  | runtimeOther (n : Nat)
  /-- failure of `client.admin.command("ping")`, line 74. -/
  | pingFailed
  /-- Pydantic validation failure for the stored document with this id, line 230. -/
  | validationError (oid : Nat)
  /-- any other (non-`RuntimeError`) exception. -/
  | otherError (n : Nat)
deriving DecidableEq, Repr

/-- `isinstance(e, RuntimeError)`. -/
def PyErr.isRuntime : PyErr → Bool
  | .runtimeLoopClosed => true
  | .runtimeNoLoop => true
  | .runtimeOther _ => true
  | _ => false

/-- `"Event loop is closed" in str(e) or "loop is closed" in str(e).lower()`. -/
def PyErr.loopClosedMsg : PyErr → Bool
  | .runtimeLoopClosed => true
  | _ => false

/-- A failure is handled by the stale-context retry (lines 202-204 etc.)
exactly when it is a `RuntimeError` whose message mentions a closed loop. -/
def PyErr.isStale (e : PyErr) : Bool :=
  e.isRuntime && e.loopClosedMsg

/-- The dict returned by `get_database_info`. -/
structure DBInfo where
  database_name : String
  collection_name : String
  document_count : Nat
  existsFlag : Bool
  indexes : List String
deriving DecidableEq, Repr

/-- Whole-system state: the `MongoDB` class fields, the environment
(configuration, current event loop), the external store with its fault
injection script, and instrumentation counters used only to state
properties (network-call, connect-call and per-operation attempt
counters; logs of closed clients, attempted inserts, logged documents). -/
structure Sys where
  -- configuration (environment variables)
  mongodbUrl : Option String
  dbNameEnv : Option String
  -- current execution context: `asyncio.get_running_loop()` result
  -- (`none` = RuntimeError: no running loop) and whether it is closed
  runningLoop : Option Nat
  loopClosed : Bool
  -- external store
  store : List StoredDoc
  nextOid : Nat
  collSize : Nat
  indexes : List String
  collectionExists : Bool
  now : Nat
  -- fault injection for the external collaborators
  pingOk : Bool
  listCollOk : Bool
  dummyOk : Bool
  indexOk : Bool
  closeOk : Bool
  faults : List (Option PyErr)
  -- `MongoDB` class fields
  client : Option Nat
  database : Option String
  connectionLock : Option Nat
  lockLoopId : Option Nat
  clientLoopId : Option Nat
  -- instrumentation
  netCalls : Nat
  connectCalls : Nat
  nextClientId : Nat
  nextLockId : Nat
  insertCalls : Nat
  findCalls : Nat
  deleteCalls : Nat
  statsCalls : Nat
  closedClients : List Nat
  insertLog : List SensorDoc
  errLog : List Nat
deriving DecidableEq, Repr

namespace MongoDB

/-- `if not mongodb_url:` — `os.getenv` returns `None` when unset and the
empty string is falsy. -/
def urlMissing (s : Sys) : Bool :=
  s.mongodbUrl = none || s.mongodbUrl = some ""

/-- `os.getenv("MONGODB_DB_NAME", "embedded-statistics-tracking-dev")`. -/
def dbName (s : Sys) : String :=
  s.dbNameEnv.getD "embedded-statistics-tracking-dev"

/-- `client.close()` tolerating failure: the closed client is recorded
when the close call succeeds; the exception (if any) is logged, never
raised. -/
def closeClient (s : Sys) : Sys :=
  { s with closedClients := s.closedClients ++ (if s.closeOk then s.client.toList else []) }

/-- Clearing the handle fields (`cls.client = None; cls.database = None;
cls._client_loop_id = None`), as done on the staleness-detection and
stale-retry paths. -/
def clearClient (s : Sys) : Sys :=
  { s with client := none, database := none, clientLoopId := none }

/-- `MongoDB._get_connection_lock` (lines 19-41). -/
def _get_connection_lock (s : Sys) : Except PyErr Nat × Sys :=
  match s.runningLoop with
  | none => (.error .runtimeNoLoop, s)
  | some lid =>
    if s.connectionLock = none || s.lockLoopId ≠ some lid then
      (.ok s.nextLockId,
        { s with connectionLock := some s.nextLockId,
                 nextLockId := s.nextLockId + 1,
                 lockLoopId := some lid })
    else
      (.ok (s.connectionLock.getD 0), s)

/-- Lines 98-102 of `connect`: `create_index("timestamp")`, a network
call whose failure is logged and swallowed (best-effort). -/
def createIndexStep (s : Sys) : Sys :=
  let s := { s with netCalls := s.netCalls + 1, now := s.now + 1 }
  if s.indexOk then
    { s with indexes :=
        if "timestamp_1" ∈ s.indexes then s.indexes
        else s.indexes ++ ["timestamp_1"] }
  else s

/-- Lines 84-102 of `connect`: `list_collection_names`, lazy collection
creation through a dummy insert/delete, and index creation. -/
def schemaPrep (s : Sys) : Except PyErr Unit × Sys :=
  -- line 84: list_collection_names (network call)
  let s := { s with netCalls := s.netCalls + 1, now := s.now + 1 }
  if !s.listCollOk then
    (.error (.otherError 1), s)
  else
    if !s.collectionExists then
      -- lines 89-91: dummy insert followed by delete of the same id
      let s := { s with netCalls := s.netCalls + 1, now := s.now + 1 }
      if !s.dummyOk then
        (.error (.otherError 2), s)
      else
        let s := { s with netCalls := s.netCalls + 1, now := s.now + 1,
                          nextOid := s.nextOid + 1,
                          collectionExists := true }
        (.ok (), createIndexStep s)
    else
      (.ok (), createIndexStep s)

/-- Lines 60-66 of `connect`: close the existing client if it was created
in a different event loop than the current one. -/
def closeOldIfLoopChanged (s : Sys) : Sys :=
  if s.client.isSome && s.clientLoopId ≠ s.runningLoop then
    let s := closeClient s
    { s with client := none, database := none }
  else s

/-- Lines 68-70 of `connect`: assign client, database and loop id (this
precedes the ping of line 74). -/
def assignClient (s : Sys) : Sys :=
  { s with client := some s.nextClientId,
           nextClientId := s.nextClientId + 1,
           database := some (dbName s),
           clientLoopId := s.runningLoop }

/-- Line 74 of `connect`: the ping network round trip. -/
def pingStep (s : Sys) : Sys :=
  { s with netCalls := s.netCalls + 1, now := s.now + 1 }

/-- Lines 68-106 of `connect`: assignment, ping, schema preparation. -/
def connectBody (s : Sys) : Except PyErr Unit × Sys :=
  let s := pingStep (assignClient s)
  if !s.pingOk then
    (.error .pingFailed, s)
  else
    schemaPrep s

/-- `MongoDB.connect` (lines 43-106), translated step by step: URL check,
close-old-client-on-loop-change, client/database assignment, ping, then
schema preparation. -/
def connect (s : Sys) : Except PyErr Unit × Sys :=
  let s := { s with connectCalls := s.connectCalls + 1 }
  if urlMissing s then
    (.error .valueErrorUrlMissing, s)
  else
    connectBody (closeOldIfLoopChanged s)

/-- `MongoDB.disconnect` (lines 108-122).  The whole body sits under
`if cls.client:`; the `finally` clears all five fields whether or not
the close call fails. -/
def disconnect (s : Sys) : Except PyErr Unit × Sys :=
  match s.client with
  | none => (.ok (), s)
  | some _ =>
    let s := closeClient s
    (.ok (), { s with client := none, database := none, connectionLock := none,
                      lockLoopId := none, clientLoopId := none })

/-- Slow path of `ensure_connected` (lines 167-173): take the connection
lock and double-check the state before connecting. -/
def ensureSlowPath (s : Sys) : Except PyErr Unit × Sys :=
  match _get_connection_lock s with
  | (.error e, s) => (.error e, s)
  | (.ok _, s) =>
    if s.database = none || s.client = none then connect s
    else (.ok (), s)

/-- `MongoDB.ensure_connected` (lines 124-173): fast path with staleness
detection, then the locked double-checked connect. -/
def ensure_connected (s : Sys) : Except PyErr Unit × Sys :=
  if s.database.isSome && s.client.isSome then
    match s.runningLoop with
    | none =>
      -- lines 159-165: no running loop, clear and reconnect
      ensureSlowPath (clearClient s)
    | some lid =>
      if s.loopClosed then
        -- lines 140-144: current loop closed, clear and reconnect
        ensureSlowPath (clearClient s)
      else if s.clientLoopId.isSome && s.clientLoopId ≠ some lid then
        -- lines 146-155: different loop: close old client, clear, reconnect
        ensureSlowPath (clearClient (closeClient s))
      else
        -- lines 156-158: same loop, fast path, return immediately
        (.ok (), s)
  else
    ensureSlowPath s

/-- One entry of the fault script is consumed by each data-store call;
an exhausted script means success. -/
def popFault (s : Sys) : Option PyErr × Sys :=
  match s.faults with
  | [] => (none, s)
  | f :: rest => (f, { s with faults := rest })

/-- `collection.insert_one(document)`: counts the attempt, logs the
attempted document, then either fails per the fault script or appends
the document with the next server-assigned id. -/
def insertOneCall (d : SensorDoc) (s : Sys) : Except PyErr Nat × Sys :=
  let s := { s with insertCalls := s.insertCalls + 1, netCalls := s.netCalls + 1,
                    now := s.now + 1, insertLog := s.insertLog ++ [d] }
  match popFault s with
  | (some e, s) => (.error e, s)
  | (none, s) =>
    (.ok s.nextOid,
      { s with store := s.store ++ [⟨s.nextOid, d, true⟩], nextOid := s.nextOid + 1 })

/-- `MongoDB.insert_sensor_data` (lines 175-212): ensure connected, build
the document once (with `datetime.utcnow()`), attempt the insert, and on
a stale-context `RuntimeError` invalidate, reconnect and retry the same
document exactly once. -/
def buildDoc (data : SensorDataInput) (now : Nat) : SensorDoc :=
  { timestamp := now, temperature := data.temperature, humidity := data.humidity,
    voc := data.voc, light := data.light, sound := data.sound,
    accelerometer := data.accelerometer, gyroscope := data.gyroscope }

def insert_sensor_data (data : SensorDataInput) (s : Sys) : Except PyErr String × Sys :=
  match ensure_connected s with
  | (.error e, s) => (.error e, s)
  | (.ok _, s) =>
    let document : SensorDoc := buildDoc data s.now
    match insertOneCall document s with
    | (.ok oid, s) => (.ok (toString oid), s)
    | (.error e, s) =>
      if e.isStale then
        let s := clearClient s
        match ensure_connected s with
        | (.error e2, s) => (.error e2, s)
        | (.ok _, s) =>
          match insertOneCall document s with
          | (.ok oid, s) => (.ok (toString oid), s)
          | (.error e2, s) => (.error e2, s)
      else (.error e, s)

/-- Descending order on stored documents used by
`find().sort("timestamp", -1)`. -/
def tsGE (a b : StoredDoc) : Prop := b.doc.timestamp ≤ a.doc.timestamp

instance : DecidableRel tsGE := fun a b => by
  unfold tsGE; infer_instance

instance : IsTotal StoredDoc tsGE := ⟨fun a b => Nat.le_total b.doc.timestamp a.doc.timestamp⟩

instance : IsTrans StoredDoc tsGE := ⟨fun _ _ _ h h2 => Nat.le_trans h2 h⟩

/-- The store serves `find().sort("timestamp", -1)` as the documents
sorted by timestamp descending. -/
def sortDesc (l : List StoredDoc) : List StoredDoc := List.insertionSort tsGE l

/-- `cursor = find().sort("timestamp", -1); documents = await cursor.to_list(...)`
as one store call. -/
def findCall (s : Sys) : Except PyErr (List StoredDoc) × Sys :=
  let s := { s with findCalls := s.findCalls + 1, netCalls := s.netCalls + 1,
                    now := s.now + 1 }
  match popFault s with
  | (some e, s) => (.error e, s)
  | (none, s) => (.ok (sortDesc s.store), s)

/-- `SensorDataOutput(**doc)` after `doc["_id"] = str(doc["_id"])`. -/
def outDoc (d : StoredDoc) : SensorDataOutput :=
  { id := some (toString d.oid), timestamp := d.doc.timestamp,
    temperature := d.doc.temperature, humidity := d.doc.humidity,
    voc := d.doc.voc, light := d.doc.light, sound := d.doc.sound,
    accelerometer := d.doc.accelerometer, gyroscope := d.doc.gyroscope }

def translateDoc (d : StoredDoc) : Except PyErr SensorDataOutput :=
  if d.valid then .ok (outDoc d)
  else .error (.validationError d.oid)

/-- The translation loop of the first attempt (lines 223-233): each
failure is logged with the offending raw document and re-raised, so the
first failing document aborts the whole loop. -/
def translateAllLog (l : List StoredDoc) (s : Sys) :
    Except PyErr (List SensorDataOutput) × Sys :=
  match l with
  | [] => (.ok [], s)
  | d :: rest =>
    match translateDoc d with
    | .error e => (.error e, { s with errLog := s.errLog ++ [d.oid] })
    | .ok o =>
      match translateAllLog rest s with
      | (.error e, s) => (.error e, s)
      | (.ok os, s) => (.ok (o :: os), s)

/-- The translation loop of the retry path (lines 247-251): no per-document
logging; a failure propagates. -/
def translateAll (l : List StoredDoc) : Except PyErr (List SensorDataOutput) :=
  match l with
  | [] => .ok []
  | d :: rest =>
    match translateDoc d with
    | .error e => .error e
    | .ok o =>
      match translateAll rest with
      | .error e => .error e
      | .ok os => .ok (o :: os)

/-- `MongoDB.get_all_sensor_data` (lines 214-257): ensure connected, fetch
and translate; on a stale-context `RuntimeError` invalidate, reconnect and
retry once; any other escaping exception is logged and re-raised. -/
def get_all_sensor_data (s : Sys) : Except PyErr (List SensorDataOutput) × Sys :=
  match ensure_connected s with
  | (.error e, s) => (.error e, s)
  | (.ok _, s) =>
    let firstTry :=
      match findCall s with
      | (.error e, s) => (Except.error e, s)
      | (.ok docs, s) =>
        match translateAllLog docs s with
        | (.error e, s) => (Except.error e, s)
        | (.ok os, s) => (Except.ok os, s)
    match firstTry with
    | (.ok os, s) => (.ok os, s)
    | (.error e, s) =>
      if e.isStale then
        let s := clearClient s
        match ensure_connected s with
        | (.error e2, s) => (.error e2, s)
        | (.ok _, s) =>
          match findCall s with
          | (.error e2, s) => (.error e2, s)
          | (.ok docs, s) =>
            match translateAll docs with
            | .error e2 => (.error e2, s)
            | .ok os => (.ok os, s)
      else (.error e, s)

/-- `collection.delete_many({})` as one store call. -/
def deleteManyCall (s : Sys) : Except PyErr Nat × Sys :=
  let s := { s with deleteCalls := s.deleteCalls + 1, netCalls := s.netCalls + 1,
                    now := s.now + 1 }
  match popFault s with
  | (some e, s) => (.error e, s)
  | (none, s) => (.ok s.store.length, { s with store := [] })

/-- `MongoDB.clear_all_data` (lines 259-277). -/
def clear_all_data (s : Sys) : Except PyErr Nat × Sys :=
  match ensure_connected s with
  | (.error e, s) => (.error e, s)
  | (.ok _, s) =>
    match deleteManyCall s with
    | (.ok n, s) => (.ok n, s)
    | (.error e, s) =>
      if e.isStale then
        let s := clearClient s
        match ensure_connected s with
        | (.error e2, s) => (.error e2, s)
        | (.ok _, s) =>
          match deleteManyCall s with
          | (.ok n, s) => (.ok n, s)
          | (.error e2, s) => (.error e2, s)
      else (.error e, s)

/-- The `collStats` + `count_documents` + `list_indexes` block of
`get_database_info`, as one store call producing the success dict. -/
def statsCall (s : Sys) : Except PyErr DBInfo × Sys :=
  let s := { s with statsCalls := s.statsCalls + 1, netCalls := s.netCalls + 1,
                    now := s.now + 1 }
  match popFault s with
  | (some e, s) => (.error e, s)
  | (none, s) =>
    (.ok { database_name := s.database.getD "unknown",
           collection_name := "sensor_readings",
           document_count := s.store.length,
           existsFlag := s.store.length > 0 || s.collSize > 0,
           indexes := s.indexes }, s)

/-- The fallback dict of lines 316-322 / 327-333. -/
def statsFallback (s : Sys) : DBInfo :=
  { database_name := s.database.getD "unknown",
    collection_name := "sensor_readings",
    document_count := 0,
    existsFlag := false,
    indexes := [] }

/-- `MongoDB.get_database_info` (lines 279-333): on a stale-context
`RuntimeError` reconnect and retry once, but the retry is wrapped in
`except Exception` returning the fallback dict; a non-stale
`RuntimeError` is re-raised, and any other exception yields the
fallback dict. -/
def get_database_info (s : Sys) : Except PyErr DBInfo × Sys :=
  match ensure_connected s with
  | (.error e, s) => (.error e, s)
  | (.ok _, s) =>
    match statsCall s with
    | (.ok d, s) => (.ok d, s)
    | (.error e, s) =>
      if e.isStale then
        let s := clearClient s
        match ensure_connected s with
        | (.error e2, s) => (.error e2, s)
        | (.ok _, s) =>
          match statsCall s with
          | (.ok d, s) => (.ok d, s)
          | (.error _, s) => (.ok (statsFallback s), s)
      else if e.isRuntime then (.error e, s)
      else (.ok (statsFallback s), s)

/-- A manager state that is connected in the current live event loop with
the connection address configured and a healthy store: the class fields
as `connect` leaves them, parameterised by the store contents, the next
server id, the clock and the fault script.  Used to instantiate claims
about the store operations. -/
def mkReady (store : List StoredDoc) (nextOid now : Nat)
    (faults : List (Option PyErr)) : Sys :=
  { mongodbUrl := some "mongodb://localhost:27017"
    dbNameEnv := none
    runningLoop := some 1
    loopClosed := false
    store := store
    nextOid := nextOid
    collSize := 0
    indexes := ["_id_", "timestamp_1"]
    collectionExists := true
    now := now
    pingOk := true
    listCollOk := true
    dummyOk := true
    indexOk := true
    closeOk := true
    faults := faults
    client := some 5
    database := some "embedded-statistics-tracking-dev"
    connectionLock := some 3
    lockLoopId := some 1
    clientLoopId := some 1
    netCalls := 0
    connectCalls := 0
    nextClientId := 10
    nextLockId := 20
    insertCalls := 0
    findCalls := 0
    deleteCalls := 0
    statsCalls := 0
    closedClients := []
    insertLog := []
    errLog := [] }

/-- The same environment with the manager fully disconnected and the
connection address given by `url`. -/
def mkDisconnected (url : Option String) : Sys :=
  { mkReady [] 0 0 [] with
    mongodbUrl := url, client := none, database := none,
    connectionLock := none, lockLoopId := none, clientLoopId := none }

end MongoDB

/-!
Interleaving model for concurrent `ensure_connected()` calls.

The runtime is single-threaded cooperative concurrency: code between
`await` suspension points runs atomically.  Along the successful initial
connection path of `ensure_connected` the suspension points are:
acquiring a *contended* `asyncio.Lock` (an uncontended acquire returns
synchronously), and the network calls inside `connect()` (ping onward; the
`AsyncIOMotorClient` constructor and the client/database assignment are
synchronous).  Each task running `ensure_connected` is therefore a small
program over program-counter values:

* `start`    — about to run the fast-path check; if the handle is missing,
               continues synchronously into `_get_connection_lock` and the
               lock acquire, and, when the lock is free, through the
               double-check into `connect()` up to the first await (ping) —
               at which point the handle fields are already assigned
               (lines 68-70 precede line 74);
* `waiting`  — suspended in `lock.acquire()` while another task holds the
               lock; on wake-up it re-runs the double-check;
* `inConnect`— inside `connect()` at a network suspension point, holding
               the lock;
* `done`     — `ensure_connected` returned.

This scenario models the claim's premise: one live event loop, the
connection address configured, the connect sequence succeeding.
-/

/-- Program counter of one task executing `ensure_connected`. -/
inductive TPc where
  | start
  | waiting
  | inConnect
  | done
deriving DecidableEq, Repr

/-- Shared configuration: per-task program counters, the holder of the
`ConnectionLock`, whether the handle (`client` and `database`) is set, and
how many connect sequences have started. -/
structure CConfig where
  pcs : List TPc
  lockHolder : Option Nat
  handle : Bool
  connects : Nat
deriving DecidableEq, Repr

/-- The atomic block run when task `i` resumes holding (or immediately
taking) the free lock: double-check, and enter `connect()` when the handle
is still missing (assigning the handle fields before the first await). -/
def acquireStep (c : CConfig) (i : Nat) : CConfig :=
  if c.handle then
    { c with pcs := c.pcs.set i .done }
  else
    { c with pcs := c.pcs.set i .inConnect, lockHolder := some i,
             handle := true, connects := c.connects + 1 }

/-- One scheduler step: run task `i` from its current suspension point to
its next one.  A task whose step is not enabled (blocked on the held lock)
or an out-of-range index leaves the configuration unchanged. -/
def cstep (c : CConfig) (i : Nat) : CConfig :=
  match c.pcs[i]? with
  | none => c
  | some pc =>
    match pc with
    | .done => c
    | .inConnect =>
      -- finish connect (ping + schema prep succeed), release the lock
      { c with pcs := c.pcs.set i .done, lockHolder := none }
    | .start =>
      if c.handle then
        -- fast path: handle present, same live loop: return without the lock
        { c with pcs := c.pcs.set i .done }
      else
        match c.lockHolder with
        | some _ => { c with pcs := c.pcs.set i .waiting }
        | none => acquireStep c i
    | .waiting =>
      match c.lockHolder with
      | some _ => c
      | none => acquireStep c i

/-- Run a schedule (a list of task indices). -/
def crun (c : CConfig) (sched : List Nat) : CConfig :=
  sched.foldl cstep c

/-- Initial configuration: `n` tasks about to call `ensure_connected`,
no connection, no lock holder. -/
def cinit (n : Nat) : CConfig :=
  { pcs := List.replicate n .start, lockHolder := none, handle := false, connects := 0 }

/-- Invariant of the interleaving model. -/
def cinv (c : CConfig) : Prop :=
  (∀ i : Nat, c.pcs[i]? = some TPc.inConnect → c.lockHolder = some i) ∧
  c.connects ≤ 1 ∧
  (c.handle = true ↔ c.connects = 1) ∧
  (∀ i : Nat, c.pcs[i]? = some TPc.inConnect → c.handle = true) ∧
  (∀ i : Nat, c.pcs[i]? = some TPc.done → c.handle = true)

/-! ### Helper lemmas shared by the claim theorems -/

deriving instance DecidableEq for Except

namespace MongoDB

/-- `Nat.toDigitsCore` never shrinks its accumulator. -/
theorem toDigitsCore_len_ge (b : Nat) : ∀ (fuel n : Nat) (ds : List Char),
    ds.length ≤ (Nat.toDigitsCore b fuel n ds).length := by
  intro fuel
  induction fuel with
  | zero => intro n ds; simp [Nat.toDigitsCore]
  | succ f ih =>
    intro n ds
    simp only [Nat.toDigitsCore]
    by_cases h : n / b = 0
    · simp [h]
    · simp only [h, if_false]
      calc ds.length ≤ (Nat.digitChar (n % b) :: ds).length := by simp
        _ ≤ _ := ih _ _

/-- With fuel left, `Nat.toDigitsCore` emits at least one digit. -/
theorem toDigitsCore_len_succ (b : Nat) (f n : Nat) (ds : List Char) :
    ds.length + 1 ≤ (Nat.toDigitsCore b (f + 1) n ds).length := by
  simp only [Nat.toDigitsCore]
  by_cases h : n / b = 0
  · simp [h]
  · simp only [h, if_false]
    have h2 := toDigitsCore_len_ge b f (n / b) (Nat.digitChar (n % b) :: ds)
    simpa using h2

/-- `str(ObjectId)` is never the empty string: the decimal representation
of a `Nat` is nonempty. -/
theorem natToString_ne_empty (n : Nat) : toString n ≠ "" := by
  show Nat.repr n ≠ ""
  unfold Nat.repr
  intro h
  have hdata : (Nat.toDigits 10 n) = [] := by
    have h2 := congrArg String.data h
    simpa [List.asString] using h2
  unfold Nat.toDigits at hdata
  have h3 := toDigitsCore_len_succ 10 n n []
  rw [hdata] at h3
  simp at h3

/-- The fast path of `ensure_connected`: a set handle in the same live
loop returns at once with the state untouched. -/
theorem ensure_fast (s : Sys) (dbn : String) (c lid : Nat)
    (hdb : s.database = some dbn) (hcl : s.client = some c)
    (hloop : s.runningLoop = some lid) (hopen : s.loopClosed = false)
    (hctx : s.clientLoopId = some lid) :
    ensure_connected s = (.ok (), s) := by
  simp [ensure_connected, hdb, hcl, hloop, hopen, hctx]

/-- `connect` with the connection address missing raises at once, only
bumping the call counter. -/
theorem connect_urlMissing (s : Sys) (h : urlMissing s = true) :
    connect s = (.error .valueErrorUrlMissing, { s with connectCalls := s.connectCalls + 1 }) := by
  have h2 : (s.mongodbUrl = none || s.mongodbUrl = some "") = true := by
    simpa [urlMissing] using h
  simp [connect, urlMissing, h2]

/-- Successful `connect` on a state with no current client and an already
existing collection and index. -/
theorem connect_ok (s : Sys) (hurl : urlMissing s = false) (hcl : s.client = none)
    (hping : s.pingOk = true) (hlc : s.listCollOk = true) (hce : s.collectionExists = true)
    (hio : s.indexOk = true) (hidx : "timestamp_1" ∈ s.indexes) :
    connect s = (.ok (), { s with
      connectCalls := s.connectCalls + 1,
      client := some s.nextClientId,
      nextClientId := s.nextClientId + 1,
      database := some (dbName s),
      clientLoopId := s.runningLoop,
      netCalls := s.netCalls + 3,
      now := s.now + 3 }) := by
  have h2 : (s.mongodbUrl = none || s.mongodbUrl = some "") = false := by
    simpa [urlMissing] using hurl
  simp [connect, connectBody, closeOldIfLoopChanged, assignClient, pingStep, urlMissing,
    h2, hcl, hping, hlc, hce, schemaPrep, createIndexStep, hio, hidx, dbName]

end MongoDB

namespace MongoDB

/-- Schema preparation touches only the store/instrumentation fields:
the class fields of the manager are untouched. -/
theorem schemaPrep_frame (s : Sys) :
    (schemaPrep s).2.client = s.client ∧
    (schemaPrep s).2.database = s.database ∧
    (schemaPrep s).2.clientLoopId = s.clientLoopId ∧
    (schemaPrep s).2.connectionLock = s.connectionLock ∧
    (schemaPrep s).2.lockLoopId = s.lockLoopId ∧
    (schemaPrep s).2.nextClientId = s.nextClientId := by
  cases hlc : s.listCollOk <;> cases hce : s.collectionExists <;>
    cases hdo : s.dummyOk <;> cases hio : s.indexOk <;>
      simp [schemaPrep, createIndexStep, hlc, hce, hdo, hio]

/-- The close-old-client step does not change the client-constructor
counter. -/
theorem closeOld_nextClientId (s : Sys) :
    (closeOldIfLoopChanged s).nextClientId = s.nextClientId := by
  unfold closeOldIfLoopChanged closeClient
  split <;> rfl

/-- The close-old-client step does not change the configured database
name. -/
theorem closeOld_dbName (s : Sys) :
    dbName (closeOldIfLoopChanged s) = dbName s := by
  unfold closeOldIfLoopChanged closeClient dbName
  split <;> rfl

/-- `connectBody` (assignment, ping, schema preparation) always leaves the
freshly assigned handle in place, whether it succeeds or raises. -/
theorem connectBody_handle (s : Sys) :
    (connectBody s).2.client = some s.nextClientId ∧
    (connectBody s).2.database = some (dbName s) := by
  by_cases hping : s.pingOk = true
  · have hf := schemaPrep_frame (pingStep (assignClient s))
    constructor
    · have h1 := hf.1
      rw [show (connectBody s) = schemaPrep (pingStep (assignClient s)) by
        simp [connectBody, pingStep, assignClient, hping]]
      rw [h1]; rfl
    · have h1 := hf.2.1
      rw [show (connectBody s) = schemaPrep (pingStep (assignClient s)) by
        simp [connectBody, pingStep, assignClient, hping]]
      rw [h1]; rfl
  · have hping2 : s.pingOk = false := by simpa using hping
    simp [connectBody, pingStep, assignClient, hping2]

/-- `ensure_connected` on a cleared handle in a live loop whose lock is
already bound to that loop: the lock is reused and `connect` runs once. -/
theorem ensure_reconnect (s : Sys) (lid k : Nat)
    (hdb : s.database = none) (hcl : s.client = none)
    (hloop : s.runningLoop = some lid) (hlk : s.connectionLock = some k)
    (hlkl : s.lockLoopId = some lid)
    (hurl : urlMissing s = false) (hping : s.pingOk = true) (hlc : s.listCollOk = true)
    (hce : s.collectionExists = true) (hio : s.indexOk = true)
    (hidx : "timestamp_1" ∈ s.indexes) :
    ensure_connected s = (.ok (), { s with
      connectCalls := s.connectCalls + 1,
      client := some s.nextClientId,
      nextClientId := s.nextClientId + 1,
      database := some (dbName s),
      clientLoopId := some lid,
      netCalls := s.netCalls + 3,
      now := s.now + 3 }) := by
  have hc := connect_ok s hurl hcl hping hlc hce hio hidx
  simp [ensure_connected, hdb, hcl, ensureSlowPath, _get_connection_lock, hloop, hlk, hlkl,
    hc]

end MongoDB

/-! ### Claim C5 -/

/-- A disconnected manager with a failing liveness ping, used for claim C1. -/
def pingFailState : Sys :=
  { MongoDB.mkDisconnected (some "mongodb://localhost:27017") with pingOk := false }

/-- **C5**: calling `ensure_connected()` when a handle exists and the
current execution context matches the one recorded at connect time and is
live is an idempotent no-op: it returns successfully with the state
bit-for-bit unchanged — so the `ConnectionLock` is not touched, no network
call is made, and every manager field is as before. -/
theorem C5_fast_path_noop (s : Sys) (dbn : String) (c lid : Nat)
    (hdb : s.database = some dbn) (hcl : s.client = some c)
    (hloop : s.runningLoop = some lid) (hopen : s.loopClosed = false)
    (hctx : s.clientLoopId = some lid) :
    MongoDB.ensure_connected s = (.ok (), s) :=
  MongoDB.ensure_fast s dbn c lid hdb hcl hloop hopen hctx

theorem C5_fast_path_noop_witness :
    MongoDB.ensure_connected (MongoDB.mkReady [] 0 0 []) = (.ok (), MongoDB.mkReady [] 0 0 []) :=
  C5_fast_path_noop (MongoDB.mkReady [] 0 0 []) "embedded-statistics-tracking-dev" 5 1
    rfl rfl rfl rfl rfl

/-! ### Claim C7 -/

/-- **C7**: with the connection-address configuration absent,
`connect()` fails before any network attempt (`netCalls` is untouched)
with the configuration error, and `ensure_connected()` propagates that
error to its caller after exactly one (unretried) connect attempt,
leaving the handle fields unset. -/
theorem C7_missing_url_fails_before_network (s : Sys) (lid : Nat)
    (hurl : MongoDB.urlMissing s = true)
    (hdb : s.database = none) (hloop : s.runningLoop = some lid) :
    (MongoDB.connect s =
      (.error .valueErrorUrlMissing, { s with connectCalls := s.connectCalls + 1 })) ∧
    (∃ s2, MongoDB.ensure_connected s = (.error .valueErrorUrlMissing, s2) ∧
      s2.netCalls = s.netCalls ∧ s2.connectCalls = s.connectCalls + 1 ∧
      s2.client = s.client ∧ s2.database = s.database) := by
  refine ⟨MongoDB.connect_urlMissing s hurl, ?_⟩
  by_cases hlk : s.connectionLock = none ∨ s.lockLoopId ≠ some lid
  · have hstep : MongoDB.ensure_connected s =
        MongoDB.connect { s with
          connectionLock := some s.nextLockId,
          nextLockId := s.nextLockId + 1,
          lockLoopId := some lid } := by
      simp [MongoDB.ensure_connected, hdb, MongoDB.ensureSlowPath,
        MongoDB._get_connection_lock, hloop, hlk]
    rw [hstep, MongoDB.connect_urlMissing _ (by simpa [MongoDB.urlMissing] using hurl)]
    exact ⟨_, rfl, by simp, by simp, by simp, by simp [hdb]⟩
  · have hstep : MongoDB.ensure_connected s = MongoDB.connect s := by
      simp [MongoDB.ensure_connected, hdb, MongoDB.ensureSlowPath,
        MongoDB._get_connection_lock, hloop, hlk]
    rw [hstep, MongoDB.connect_urlMissing s hurl]
    exact ⟨_, rfl, by simp, by simp, by simp, by simp [hdb]⟩

theorem C7_missing_url_fails_before_network_witness :
    (MongoDB.connect (MongoDB.mkDisconnected none) =
      (.error .valueErrorUrlMissing,
        { MongoDB.mkDisconnected none with
          connectCalls := (MongoDB.mkDisconnected none).connectCalls + 1 })) ∧
    (∃ s2, MongoDB.ensure_connected (MongoDB.mkDisconnected none) =
        (.error .valueErrorUrlMissing, s2) ∧
      s2.netCalls = (MongoDB.mkDisconnected none).netCalls ∧
      s2.connectCalls = (MongoDB.mkDisconnected none).connectCalls + 1 ∧
      s2.client = (MongoDB.mkDisconnected none).client ∧
      s2.database = (MongoDB.mkDisconnected none).database) :=
  C7_missing_url_fails_before_network (MongoDB.mkDisconnected none) 1 rfl rfl rfl

/-! ### Claim C1 -/

/-- **C1** (counterexample): `connect()` on a configured but
ping-failing store raises, yet afterwards `cls.client` and `cls.database`
are still set (lines 68-70 assign them before the verification of line 74,
and the `except` of lines 104-106 re-raises without clearing them) — the
manager does *not* transition back to Disconnected. -/
theorem C1_counterexample :
    (MongoDB.connect pingFailState).1 = .error .pingFailed ∧
    (MongoDB.connect pingFailState).2.client = some 10 ∧
    (MongoDB.connect pingFailState).2.database = some "embedded-statistics-tracking-dev" := by
  decide

/-- **C1** (amended): on a failing `connect()` the handle is never left
*partially* set — the connection object is present exactly when the
database reference is — but the failing exit paths do not return the
manager to Disconnected: a missing connection address leaves both fields
as they were, while every path past the URL check (including the failing
ping/schema-preparation ones) leaves both fields set to the newly
assigned client. -/
theorem C1_amended (s : Sys)
    (hinv : s.client.isSome = s.database.isSome) :
    ((MongoDB.connect s).2.client.isSome = (MongoDB.connect s).2.database.isSome) ∧
    (MongoDB.urlMissing s = true →
      (MongoDB.connect s).2.client = s.client ∧ (MongoDB.connect s).2.database = s.database) ∧
    (MongoDB.urlMissing s = false →
      (MongoDB.connect s).2.client = some s.nextClientId ∧
      (MongoDB.connect s).2.database = some (MongoDB.dbName s)) := by
  by_cases hurl : MongoDB.urlMissing s = true
  · rw [MongoDB.connect_urlMissing s hurl]
    simp [hurl, hinv]
  · have hurl2 : MongoDB.urlMissing s = false := by simpa using hurl
    have h2 : (s.mongodbUrl = none || s.mongodbUrl = some "") = false := by
      simpa [MongoDB.urlMissing] using hurl2
    have hmain : (MongoDB.connect s).2.client = some s.nextClientId ∧
        (MongoDB.connect s).2.database = some (MongoDB.dbName s) := by
      have hbody := MongoDB.connectBody_handle
        (MongoDB.closeOldIfLoopChanged { s with connectCalls := s.connectCalls + 1 })
      have hstep : MongoDB.connect s =
          MongoDB.connectBody
            (MongoDB.closeOldIfLoopChanged { s with connectCalls := s.connectCalls + 1 }) := by
        simp [MongoDB.connect, MongoDB.urlMissing, h2]
      rw [hstep]
      rcases hbody with ⟨hc, hd⟩
      rw [hc, hd, MongoDB.closeOld_nextClientId, MongoDB.closeOld_dbName]
      exact ⟨rfl, rfl⟩
    refine ⟨?_, fun h => absurd h hurl, fun _ => hmain⟩
    simp [hmain.1, hmain.2]

theorem C1_amended_witness :
    ((MongoDB.connect pingFailState).2.client.isSome =
      (MongoDB.connect pingFailState).2.database.isSome) ∧
    (MongoDB.urlMissing pingFailState = true →
      (MongoDB.connect pingFailState).2.client = pingFailState.client ∧
      (MongoDB.connect pingFailState).2.database = pingFailState.database) ∧
    (MongoDB.urlMissing pingFailState = false →
      (MongoDB.connect pingFailState).2.client = some pingFailState.nextClientId ∧
      (MongoDB.connect pingFailState).2.database = some (MongoDB.dbName pingFailState)) :=
  C1_amended pingFailState rfl

/-! ### Claim C8 -/

/-- **C8** (counterexample): `disconnect()` with no connection present is
*not* an unconditional clear: the whole body of lines 111-122 sits under
`if cls.client:`, so with `client` absent but the `ConnectionLock` still
set (as after a failed first connect attempt), the lock — and both
recorded context identifiers — survive the call. -/
theorem C8_counterexample :
    (MongoDB.disconnect { MongoDB.mkReady [] 0 0 [] with
      client := none, database := none }).2.connectionLock = some 3 ∧
    (MongoDB.disconnect { MongoDB.mkReady [] 0 0 [] with
      client := none, database := none }).2.lockLoopId = some 1 := by
  decide

/-- **C8** (amended): `disconnect()` never raises; when a connection
object is present it closes it (tolerating close failure — the clear
happens in a `finally`) and unconditionally clears the handle, database
reference, `ConnectionLock` and both context identifiers; when no
connection object is present it is a no-op that leaves all remaining
state (including a surviving lock and the context identifiers)
untouched. -/
theorem C8_amended (s : Sys) :
    ((MongoDB.disconnect s).1 = .ok ()) ∧
    (s.client ≠ none → (MongoDB.disconnect s).2 = { MongoDB.closeClient s with
      client := none,
      database := none,
      connectionLock := none,
      lockLoopId := none,
      clientLoopId := none }) ∧
    (s.client = none → (MongoDB.disconnect s).2 = s) := by
  cases hc : s.client with
  | none => simp [MongoDB.disconnect, hc]
  | some c => simp [MongoDB.disconnect, hc]

theorem C8_amended_witness :
    ((MongoDB.disconnect (MongoDB.mkReady [] 0 0 [])).1 = .ok ()) ∧
    ((MongoDB.mkReady [] 0 0 []).client ≠ none →
      (MongoDB.disconnect (MongoDB.mkReady [] 0 0 [])).2 =
        { MongoDB.closeClient (MongoDB.mkReady [] 0 0 []) with
          client := none,
          database := none,
          connectionLock := none,
          lockLoopId := none,
          clientLoopId := none }) ∧
    ((MongoDB.mkReady [] 0 0 []).client = none →
      (MongoDB.disconnect (MongoDB.mkReady [] 0 0 [])).2 = MongoDB.mkReady [] 0 0 []) :=
  C8_amended (MongoDB.mkReady [] 0 0 [])

/-! ### Claim C6 -/

/-- **C6**: when the execution-context identifier recorded at connect
time differs from the current live loop, `ensure_connected()` performs a
full reconnect: the old connection is closed (its id is recorded in
`closedClients`), a fresh client is constructed and recorded together
with the new context identifier, and — because the lock was bound to the
old context — the `ConnectionLock` is recreated rather than reused. -/
theorem C6_context_change_full_reconnect (s : Sys) (c oldL lid : Nat) (dbn : String)
    (hcl : s.client = some c) (hdb : s.database = some dbn)
    (hctx : s.clientLoopId = some oldL) (hloop : s.runningLoop = some lid)
    (hne : oldL ≠ lid) (hopen : s.loopClosed = false)
    (hlkl : s.lockLoopId = some oldL) (hclose : s.closeOk = true)
    (hurl : MongoDB.urlMissing s = false) (hping : s.pingOk = true)
    (hlc : s.listCollOk = true) (hce : s.collectionExists = true)
    (hio : s.indexOk = true) (hidx : "timestamp_1" ∈ s.indexes) :
    ∃ s2, MongoDB.ensure_connected s = (.ok (), s2) ∧
      c ∈ s2.closedClients ∧
      s2.client = some s.nextClientId ∧
      s2.database = some (MongoDB.dbName s) ∧
      s2.clientLoopId = some lid ∧
      s2.connectionLock = some s.nextLockId ∧
      s2.lockLoopId = some lid ∧
      s2.connectCalls = s.connectCalls + 1 := by
  have hstep : MongoDB.ensure_connected s =
      MongoDB.connect { MongoDB.clearClient (MongoDB.closeClient s) with
        connectionLock := some s.nextLockId,
        nextLockId := s.nextLockId + 1,
        lockLoopId := some lid } := by
    simp [MongoDB.ensure_connected, hcl, hdb, hloop, hopen, hctx, hne,
      MongoDB.ensureSlowPath, MongoDB._get_connection_lock, MongoDB.clearClient,
      MongoDB.closeClient, hlkl]
  rw [hstep]
  rw [MongoDB.connect_ok _ (by simpa [MongoDB.urlMissing, MongoDB.clearClient,
        MongoDB.closeClient] using hurl)
      (by simp [MongoDB.clearClient, MongoDB.closeClient])
      (by simpa [MongoDB.clearClient, MongoDB.closeClient] using hping)
      (by simpa [MongoDB.clearClient, MongoDB.closeClient] using hlc)
      (by simpa [MongoDB.clearClient, MongoDB.closeClient] using hce)
      (by simpa [MongoDB.clearClient, MongoDB.closeClient] using hio)
      (by simpa [MongoDB.clearClient, MongoDB.closeClient] using hidx)]
  refine ⟨_, rfl, ?_, ?_, ?_, ?_, ?_, ?_, ?_⟩ <;>
    simp [MongoDB.clearClient, MongoDB.closeClient, MongoDB.dbName, hclose, hcl, hloop]

theorem C6_context_change_full_reconnect_witness :
    ∃ s2, MongoDB.ensure_connected { MongoDB.mkReady [] 0 0 [] with
        clientLoopId := some 2, lockLoopId := some 2 } = (.ok (), s2) ∧
      5 ∈ s2.closedClients ∧
      s2.client = some 10 ∧
      s2.database = some "embedded-statistics-tracking-dev" ∧
      s2.clientLoopId = some 1 ∧
      s2.connectionLock = some 20 ∧
      s2.lockLoopId = some 1 ∧
      s2.connectCalls = 1 :=
  C6_context_change_full_reconnect
    { MongoDB.mkReady [] 0 0 [] with clientLoopId := some 2, lockLoopId := some 2 }
    5 2 1 "embedded-statistics-tracking-dev"
    rfl rfl rfl rfl (by decide) rfl rfl rfl rfl rfl rfl rfl rfl (by decide)

namespace MongoDB

/-- The retry-path translation loop succeeds on all-valid documents. -/
theorem translateAll_ok (l : List StoredDoc) (hv : ∀ d ∈ l, d.valid = true) :
    translateAll l = .ok (l.map outDoc) := by
  induction l with
  | nil => rfl
  | cons d rest ih =>
    have hd : d.valid = true := hv d (by simp)
    have hr := ih (fun x hx => hv x (by simp [hx]))
    simp [translateAll, translateDoc, hd, hr]

/-- The logged translation loop succeeds on all-valid documents without
touching the state. -/
theorem translateAllLog_ok (l : List StoredDoc) (s : Sys)
    (hv : ∀ d ∈ l, d.valid = true) :
    translateAllLog l s = (.ok (l.map outDoc), s) := by
  induction l with
  | nil => rfl
  | cons d rest ih =>
    have hd : d.valid = true := hv d (by simp)
    have hr := ih (fun x hx => hv x (by simp [hx]))
    simp [translateAllLog, translateDoc, hd, hr]

/-- The logged translation loop aborts at the first invalid document,
logging exactly that document and raising its validation error. -/
theorem translateAllLog_err (l : List StoredDoc) (s : Sys) (d : StoredDoc)
    (hmem : d ∈ l) (hbad : d.valid = false) :
    ∃ d2, d2 ∈ l ∧ d2.valid = false ∧
      translateAllLog l s =
        (.error (.validationError d2.oid), { s with errLog := s.errLog ++ [d2.oid] }) := by
  induction l with
  | nil => cases hmem
  | cons h rest ih =>
    by_cases hh : h.valid = true
    · have hd : d ∈ rest := by
        rcases List.mem_cons.mp hmem with h1 | h1
        · rw [h1] at hbad; rw [hh] at hbad; cases hbad
        · exact h1
      obtain ⟨d2, hm2, hv2, heq⟩ := ih hd
      exact ⟨d2, by simp [hm2], hv2, by simp [translateAllLog, translateDoc, hh, heq]⟩
    · have hh2 : h.valid = false := by simpa using hh
      exact ⟨h, by simp, hh2, by simp [translateAllLog, translateDoc, hh2]⟩

/-- `find().sort` returns a permutation of the stored documents. -/
theorem sortDesc_perm (l : List StoredDoc) : (sortDesc l).Perm l :=
  List.perm_insertionSort _ l

/-- `find().sort` returns the documents sorted by timestamp descending. -/
theorem sortDesc_sorted (l : List StoredDoc) : List.Sorted tsGE (sortDesc l) :=
  List.sorted_insertionSort tsGE l

theorem mem_sortDesc {d : StoredDoc} {l : List StoredDoc} : d ∈ sortDesc l ↔ d ∈ l :=
  (sortDesc_perm l).mem_iff

end MongoDB

/-! ### Claim C2 -/

/-- **C2** (counterexample): in `get_database_info` the retried stats
block is wrapped in `except Exception` (lines 304-322): when the retry
fails again, the error does *not* propagate — the call returns the
fallback zero snapshot after its two attempts. -/
theorem C2_counterexample :
    (MongoDB.get_database_info (MongoDB.mkReady [] 0 50
      [some .runtimeLoopClosed, some (.otherError 7)])).1 =
      .ok { database_name := "embedded-statistics-tracking-dev",
            collection_name := "sensor_readings", document_count := 0,
            existsFlag := false, indexes := [] } ∧
    (MongoDB.get_database_info (MongoDB.mkReady [] 0 50
      [some .runtimeLoopClosed, some (.otherError 7)])).2.statsCalls = 2 := by
  decide

/-- **C2** (amended): every store operation that fails with a
stale-execution-context error invalidates the connection state,
reconnects and retries the store call exactly once (two attempts in
total).  For `insert`, `list_all` and `clear_all` a second failure
propagates unmodified; for `get_stats` the retry is also attempted
exactly once but a second failure is swallowed and the zero/fallback
snapshot is returned instead of propagating. -/
theorem C2_amended (store : List StoredDoc) (oid now : Nat) (data : SensorDataInput)
    (e2 : PyErr) (rest : List (Option PyErr))
    (hv : ∀ d ∈ store, d.valid = true) :
    ((MongoDB.insert_sensor_data data (MongoDB.mkReady store oid now
        (some .runtimeLoopClosed :: none :: rest))).1 = .ok (toString oid) ∧
     (MongoDB.insert_sensor_data data (MongoDB.mkReady store oid now
        (some .runtimeLoopClosed :: none :: rest))).2.insertCalls = 2) ∧
    ((MongoDB.insert_sensor_data data (MongoDB.mkReady store oid now
        (some .runtimeLoopClosed :: some e2 :: rest))).1 = .error e2 ∧
     (MongoDB.insert_sensor_data data (MongoDB.mkReady store oid now
        (some .runtimeLoopClosed :: some e2 :: rest))).2.insertCalls = 2) ∧
    ((MongoDB.get_all_sensor_data (MongoDB.mkReady store oid now
        (some .runtimeLoopClosed :: none :: rest))).1 =
          .ok ((MongoDB.sortDesc store).map MongoDB.outDoc) ∧
     (MongoDB.get_all_sensor_data (MongoDB.mkReady store oid now
        (some .runtimeLoopClosed :: none :: rest))).2.findCalls = 2) ∧
    ((MongoDB.get_all_sensor_data (MongoDB.mkReady store oid now
        (some .runtimeLoopClosed :: some e2 :: rest))).1 = .error e2 ∧
     (MongoDB.get_all_sensor_data (MongoDB.mkReady store oid now
        (some .runtimeLoopClosed :: some e2 :: rest))).2.findCalls = 2) ∧
    ((MongoDB.clear_all_data (MongoDB.mkReady store oid now
        (some .runtimeLoopClosed :: none :: rest))).1 = .ok store.length ∧
     (MongoDB.clear_all_data (MongoDB.mkReady store oid now
        (some .runtimeLoopClosed :: none :: rest))).2.deleteCalls = 2 ∧
     (MongoDB.clear_all_data (MongoDB.mkReady store oid now
        (some .runtimeLoopClosed :: none :: rest))).2.store = []) ∧
    ((MongoDB.clear_all_data (MongoDB.mkReady store oid now
        (some .runtimeLoopClosed :: some e2 :: rest))).1 = .error e2 ∧
     (MongoDB.clear_all_data (MongoDB.mkReady store oid now
        (some .runtimeLoopClosed :: some e2 :: rest))).2.deleteCalls = 2) ∧
    ((MongoDB.get_database_info (MongoDB.mkReady store oid now
        (some .runtimeLoopClosed :: none :: rest))).1 =
          .ok { database_name := "embedded-statistics-tracking-dev",
                collection_name := "sensor_readings",
                document_count := store.length,
                existsFlag := decide (0 < store.length),
                indexes := ["_id_", "timestamp_1"] } ∧
     (MongoDB.get_database_info (MongoDB.mkReady store oid now
        (some .runtimeLoopClosed :: none :: rest))).2.statsCalls = 2) ∧
    ((MongoDB.get_database_info (MongoDB.mkReady store oid now
        (some .runtimeLoopClosed :: some e2 :: rest))).1 =
          .ok { database_name := "embedded-statistics-tracking-dev",
                collection_name := "sensor_readings",
                document_count := 0,
                existsFlag := false,
                indexes := [] } ∧
     (MongoDB.get_database_info (MongoDB.mkReady store oid now
        (some .runtimeLoopClosed :: some e2 :: rest))).2.statsCalls = 2) := by
  have hv2 : ∀ d ∈ MongoDB.sortDesc store, d.valid = true :=
    fun d hd => hv d (MongoDB.mem_sortDesc.mp hd)
  refine ⟨⟨?_, ?_⟩, ⟨?_, ?_⟩, ⟨?_, ?_⟩, ⟨?_, ?_⟩, ⟨?_, ?_, ?_⟩, ⟨?_, ?_⟩, ⟨?_, ?_⟩, ⟨?_, ?_⟩⟩ <;>
    simp [MongoDB.insert_sensor_data, MongoDB.get_all_sensor_data, MongoDB.clear_all_data,
      MongoDB.get_database_info, MongoDB.mkReady, MongoDB.ensure_connected,
      MongoDB.ensureSlowPath, MongoDB._get_connection_lock, MongoDB.clearClient,
      MongoDB.insertOneCall, MongoDB.findCall, MongoDB.deleteManyCall, MongoDB.statsCall,
      MongoDB.statsFallback, MongoDB.popFault, MongoDB.connect, MongoDB.connectBody,
      MongoDB.closeOldIfLoopChanged, MongoDB.assignClient, MongoDB.pingStep,
      MongoDB.schemaPrep, MongoDB.createIndexStep, MongoDB.urlMissing, MongoDB.dbName,
      MongoDB.closeClient, MongoDB.translateAllLog_ok _ _ hv2,
      MongoDB.translateAll_ok _ hv2,
      PyErr.isStale, PyErr.isRuntime, PyErr.loopClosedMsg]

theorem C2_amended_witness :
    (MongoDB.insert_sensor_data ⟨1, 2, 3, 4, 5, ⟨1, 1, 1⟩, ⟨2, 2, 2⟩⟩
      (MongoDB.mkReady [] 0 50 (some .runtimeLoopClosed :: none :: []))).1 =
        .ok (toString 0) ∧
    (MongoDB.insert_sensor_data ⟨1, 2, 3, 4, 5, ⟨1, 1, 1⟩, ⟨2, 2, 2⟩⟩
      (MongoDB.mkReady [] 0 50 (some .runtimeLoopClosed :: none :: []))).2.insertCalls = 2 :=
  (C2_amended [] 0 50 ⟨1, 2, 3, 4, 5, ⟨1, 1, 1⟩, ⟨2, 2, 2⟩⟩ (.otherError 7) []
    (by simp)).1

/-! ### Claim C10 -/

/-- **C10**: `insert_sensor_data` builds the document — including its
manager-assigned UTC timestamp — once, before the first store attempt
(at clock `now`); when the first attempt fails with a stale-context
error, the retry (which happens strictly later: the reconnect advances
the clock, and the final clock is `now + 5`) inserts the *identical*
document, so the stored timestamp is `now`, the time of the first
attempt, not the time of the retry. -/
theorem C10_document_built_once (store : List StoredDoc) (oid now : Nat)
    (data : SensorDataInput) (rest : List (Option PyErr)) :
    (MongoDB.insert_sensor_data data (MongoDB.mkReady store oid now
        (some .runtimeLoopClosed :: none :: rest))).1 = .ok (toString oid) ∧
    (MongoDB.insert_sensor_data data (MongoDB.mkReady store oid now
        (some .runtimeLoopClosed :: none :: rest))).2.insertLog =
      [MongoDB.buildDoc data now, MongoDB.buildDoc data now] ∧
    (MongoDB.buildDoc data now).timestamp = now ∧
    (MongoDB.insert_sensor_data data (MongoDB.mkReady store oid now
        (some .runtimeLoopClosed :: none :: rest))).2.store =
      store ++ [⟨oid, MongoDB.buildDoc data now, true⟩] ∧
    (MongoDB.insert_sensor_data data (MongoDB.mkReady store oid now
        (some .runtimeLoopClosed :: none :: rest))).2.now = now + 5 := by
  refine ⟨?_, ?_, rfl, ?_, ?_⟩ <;>
    simp [MongoDB.insert_sensor_data, MongoDB.mkReady, MongoDB.ensure_connected,
      MongoDB.ensureSlowPath, MongoDB._get_connection_lock, MongoDB.clearClient,
      MongoDB.insertOneCall, MongoDB.popFault, MongoDB.connect, MongoDB.connectBody,
      MongoDB.closeOldIfLoopChanged, MongoDB.assignClient, MongoDB.pingStep,
      MongoDB.schemaPrep, MongoDB.createIndexStep, MongoDB.urlMissing, MongoDB.dbName,
      MongoDB.closeClient, PyErr.isStale, PyErr.isRuntime, PyErr.loopClosedMsg]

namespace MongoDB

/-- Every error the logged translation loop can produce is a validation
error (in particular never a stale-context `RuntimeError`). -/
theorem translateAllLog_error_shape :
    ∀ {l : List StoredDoc} {s : Sys} {e : PyErr} {s2 : Sys},
      translateAllLog l s = (.error e, s2) → ∃ n, e = .validationError n := by
  intro l
  induction l with
  | nil => intro s e s2 h; simp [translateAllLog] at h
  | cons d rest ih =>
    intro s e s2 h
    by_cases hd : d.valid = true
    · simp only [translateAllLog, translateDoc, hd, if_true] at h
      rcases hrest : translateAllLog rest s with ⟨r, s3⟩
      rw [hrest] at h
      cases r with
      | ok os => simp at h
      | error e2 =>
        simp only [Prod.mk.injEq, Except.error.injEq] at h
        obtain ⟨n, hn⟩ := ih hrest
        exact ⟨n, h.1 ▸ hn⟩
    · have hd2 : d.valid = false := by simpa using hd
      simp only [translateAllLog, translateDoc, hd2, Bool.false_eq_true, if_false,
        Prod.mk.injEq, Except.error.injEq] at h
      exact ⟨d.oid, h.1.symm⟩

end MongoDB

namespace MongoDB

/-- Evaluation of `get_all_sensor_data` from a connected same-loop state
whose next store call succeeds: the call reduces to the logged
translation of the sorted store. -/
theorem get_all_noFault_eq (s : Sys) (dbn : String) (c lid : Nat)
    (rest : List (Option PyErr))
    (hdb : s.database = some dbn) (hcl : s.client = some c)
    (hloop : s.runningLoop = some lid) (hopen : s.loopClosed = false)
    (hctx : s.clientLoopId = some lid) (hfault : s.faults = none :: rest) :
    get_all_sensor_data s =
      translateAllLog (sortDesc s.store)
        { s with findCalls := s.findCalls + 1, netCalls := s.netCalls + 1,
                 now := s.now + 1, faults := rest } := by
  have hfast := ensure_fast s dbn c lid hdb hcl hloop hopen hctx
  rcases hres : translateAllLog (sortDesc s.store)
      { s with findCalls := s.findCalls + 1, netCalls := s.netCalls + 1,
               now := s.now + 1, faults := rest } with ⟨r, s2⟩
  cases r with
  | ok os =>
    simp [get_all_sensor_data, hfast, findCall, popFault, hfault, hres]
  | error e =>
    obtain ⟨n, hn⟩ := translateAllLog_error_shape hres
    subst hn
    simp [get_all_sensor_data, hfast, findCall, popFault, hfault, hres,
      PyErr.isStale, PyErr.isRuntime, PyErr.loopClosedMsg]

end MongoDB

/-! ### Claim C9 -/

/-- **C9**: `list_all()` is all-or-nothing.  If any stored document fails
translation, the whole call raises the validation error of the first
failing document in sort order (after logging its id), and no list is
returned; conversely any successful result translates *every* stored
document (all of which are then valid), so no partial sequence is ever
produced. -/
theorem C9_list_all_or_nothing (store : List StoredDoc) (oid now : Nat)
    (rest : List (Option PyErr)) :
    ((∃ d ∈ store, d.valid = false) →
      ∃ d2 s2, d2 ∈ store ∧ d2.valid = false ∧
        MongoDB.get_all_sensor_data (MongoDB.mkReady store oid now (none :: rest)) =
          (.error (.validationError d2.oid), s2) ∧
        d2.oid ∈ s2.errLog) ∧
    (∀ l s2,
      MongoDB.get_all_sensor_data (MongoDB.mkReady store oid now (none :: rest)) =
        (.ok l, s2) →
      (∀ d ∈ store, d.valid = true) ∧
      l = (MongoDB.sortDesc store).map MongoDB.outDoc) := by
  have heval := MongoDB.get_all_noFault_eq (MongoDB.mkReady store oid now (none :: rest))
      "embedded-statistics-tracking-dev" 5 1 rest rfl rfl rfl rfl rfl rfl
  simp only [MongoDB.mkReady] at heval
  constructor
  · rintro ⟨d, hd, hbad⟩
    obtain ⟨d2, hm2, hv2, heq⟩ := MongoDB.translateAllLog_err (MongoDB.sortDesc store) _ d
      (MongoDB.mem_sortDesc.mpr hd) hbad
    simp only [MongoDB.mkReady]
    rw [heval, heq]
    exact ⟨d2, _, MongoDB.mem_sortDesc.mp hm2, hv2, rfl, by simp⟩
  · intro l s2 h
    simp only [MongoDB.mkReady] at h
    rw [heval] at h
    by_cases hall : ∀ d ∈ MongoDB.sortDesc store, d.valid = true
    · rw [MongoDB.translateAllLog_ok _ _ hall] at h
      simp only [Prod.mk.injEq, Except.ok.injEq] at h
      exact ⟨fun d hd => hall d (MongoDB.mem_sortDesc.mpr hd), h.1.symm⟩
    · push_neg at hall
      obtain ⟨d, hd, hbad⟩ := hall
      obtain ⟨d2, hm2, hv2, heq⟩ := MongoDB.translateAllLog_err (MongoDB.sortDesc store) _ d
        hd (by simpa using hbad)
      rw [heq] at h
      simp at h

theorem C9_list_all_or_nothing_witness :
    ∃ d2 s2,
      d2 ∈ [StoredDoc.mk 30 ⟨3, 0, 0, 0, 0, 0, ⟨0, 0, 0⟩, ⟨0, 0, 0⟩⟩ false] ∧
      d2.valid = false ∧
      MongoDB.get_all_sensor_data (MongoDB.mkReady
        [StoredDoc.mk 30 ⟨3, 0, 0, 0, 0, 0, ⟨0, 0, 0⟩, ⟨0, 0, 0⟩⟩ false] 31 99
        (none :: [])) = (.error (.validationError d2.oid), s2) ∧
      d2.oid ∈ s2.errLog :=
  (C9_list_all_or_nothing [StoredDoc.mk 30 ⟨3, 0, 0, 0, 0, 0, ⟨0, 0, 0⟩, ⟨0, 0, 0⟩⟩ false]
    31 99 []).1 ⟨StoredDoc.mk 30 ⟨3, 0, 0, 0, 0, 0, ⟨0, 0, 0⟩, ⟨0, 0, 0⟩⟩ false, by simp, rfl⟩

namespace MongoDB

/-- Strict descending order on stored documents. -/
def tsGT (a b : StoredDoc) : Prop := b.doc.timestamp < a.doc.timestamp

instance : IsAntisymm StoredDoc tsGT :=
  ⟨fun _ _ h1 h2 => absurd h1 (Nat.lt_asymm h2)⟩

/-- Descending order on outward readings (`list_all` result order). -/
def outGE (a b : SensorDataOutput) : Prop := b.timestamp ≤ a.timestamp

theorem pairwise_and {α : Type} {R S : α → α → Prop} :
    ∀ {l : List α}, l.Pairwise R → l.Pairwise S →
      l.Pairwise fun a b => R a b ∧ S a b
  | [], _, _ => .nil
  | _ :: _, .cons h1 t1, .cons h2 t2 =>
    .cons (fun b hb => ⟨h1 b hb, h2 b hb⟩) (pairwise_and t1 t2)

/-- A weakly descending list with pairwise distinct timestamps is
strictly descending. -/
theorem sorted_strict (l : List StoredDoc) (hs : List.Sorted tsGE l)
    (hnd : l.Pairwise fun a b => a.doc.timestamp ≠ b.doc.timestamp) :
    List.Sorted tsGT l :=
  (pairwise_and hs hnd).imp
    (fun h => Nat.lt_of_le_of_ne h.1 fun he => h.2 he.symm)

/-- If one stored document has a strictly larger timestamp than every
other element, the sorted view starts with it. -/
theorem sortDesc_head_of_strict_max (l : List StoredDoc) (m : StoredDoc)
    (hmem : m ∈ l)
    (hmax : ∀ d ∈ l, d ≠ m → d.doc.timestamp < m.doc.timestamp) :
    ∃ t, sortDesc l = m :: t := by
  have hmem2 : m ∈ sortDesc l := mem_sortDesc.mpr hmem
  have hs := sortDesc_sorted l
  cases hsd : sortDesc l with
  | nil => rw [hsd] at hmem2; cases hmem2
  | cons h t =>
    refine ⟨t, ?_⟩
    by_cases hhm : h = m
    · rw [hhm]
    · exfalso
      have hh_mem : h ∈ l := mem_sortDesc.mp (by rw [hsd]; simp)
      have hlt : h.doc.timestamp < m.doc.timestamp := hmax h hh_mem hhm
      have hm_t : m ∈ t := by
        rw [hsd] at hmem2
        rcases List.mem_cons.mp hmem2 with h1 | h1
        · exact absurd h1.symm hhm
        · exact h1
      rw [hsd] at hs
      have hge : tsGE h m := (List.sorted_cons.mp hs).1 m hm_t
      have : m.doc.timestamp ≤ h.doc.timestamp := hge
      omega

end MongoDB

namespace MongoDB

/-- Evaluation of a fault-free `insert_sensor_data` from a ready state:
the document is appended with the next server id and the state stays in
ready shape. -/
theorem insert_noFault_eq (store : List StoredDoc) (oid now : Nat)
    (data : SensorDataInput) (rest : List (Option PyErr)) :
    insert_sensor_data data (mkReady store oid now (none :: rest)) =
      (.ok (toString oid),
        { mkReady (store ++ [⟨oid, buildDoc data now, true⟩]) (oid + 1) (now + 1) rest with
          insertCalls := 1, netCalls := 1, insertLog := [buildDoc data now] }) := by
  simp [insert_sensor_data, mkReady, ensure_connected, insertOneCall, popFault]

end MongoDB


/-! ### Claim C4 -/

/-- **C4**: `list_all()` returns every stored reading sorted by timestamp
descending with each document's generated id translated to the outward
string id (part 1: the result is a permutation of the translations of
the whole store, sorted descending); readings with timestamps
T1 < T2 < T3 stored in any order come back as T3, T2, T1 (part 2); and a
reading just inserted with no newer reading present is returned as the
first element, matching all its fields, with a non-empty server-assigned
string identifier (part 3). -/
theorem C4_list_sorted_translated :
    (∀ (store : List StoredDoc) (oid now : Nat) (rest : List (Option PyErr)),
      (∀ d ∈ store, d.valid = true) →
      ∃ s2, MongoDB.get_all_sensor_data (MongoDB.mkReady store oid now (none :: rest)) =
          (.ok ((MongoDB.sortDesc store).map MongoDB.outDoc), s2) ∧
        ((MongoDB.sortDesc store).map MongoDB.outDoc).Perm (store.map MongoDB.outDoc) ∧
        List.Sorted MongoDB.outGE ((MongoDB.sortDesc store).map MongoDB.outDoc)) ∧
    (∀ (d1 d2 d3 : StoredDoc) (store : List StoredDoc) (oid now : Nat)
        (rest : List (Option PyErr)),
      store.Perm [d3, d2, d1] →
      d1.valid = true → d2.valid = true → d3.valid = true →
      d1.doc.timestamp < d2.doc.timestamp → d2.doc.timestamp < d3.doc.timestamp →
      ∃ s2, MongoDB.get_all_sensor_data (MongoDB.mkReady store oid now (none :: rest)) =
          (.ok [MongoDB.outDoc d3, MongoDB.outDoc d2, MongoDB.outDoc d1], s2)) ∧
    (∀ (store : List StoredDoc) (oid now : Nat) (data : SensorDataInput)
        (rest : List (Option PyErr)),
      (∀ d ∈ store, d.valid = true) →
      (∀ d ∈ store, d.doc.timestamp < now) →
      (MongoDB.insert_sensor_data data
        (MongoDB.mkReady store oid now (none :: none :: rest))).1 = .ok (toString oid) ∧
      toString oid ≠ "" ∧
      ∃ l s2, MongoDB.get_all_sensor_data
          (MongoDB.insert_sensor_data data
            (MongoDB.mkReady store oid now (none :: none :: rest))).2 =
        (.ok ({ id := some (toString oid), timestamp := now,
                temperature := data.temperature, humidity := data.humidity,
                voc := data.voc, light := data.light, sound := data.sound,
                accelerometer := data.accelerometer,
                gyroscope := data.gyroscope } :: l), s2)) := by
  refine ⟨?_, ?_, ?_⟩
  · intro store oid now rest hv
    have hv2 : ∀ d ∈ MongoDB.sortDesc store, d.valid = true :=
      fun d hd => hv d (MongoDB.mem_sortDesc.mp hd)
    have heval := MongoDB.get_all_noFault_eq (MongoDB.mkReady store oid now (none :: rest))
        "embedded-statistics-tracking-dev" 5 1 rest rfl rfl rfl rfl rfl rfl
    simp only [MongoDB.mkReady] at heval
    rw [MongoDB.translateAllLog_ok _ _ hv2] at heval
    simp only [MongoDB.mkReady]
    exact ⟨_, heval, (MongoDB.sortDesc_perm store).map MongoDB.outDoc,
      List.pairwise_map.mpr ((MongoDB.sortDesc_sorted store).imp fun h => h)⟩
  · intro d1 d2 d3 store oid now rest hst hv1 hv2 hv3 h12 h23
    have hperm : (MongoDB.sortDesc store).Perm [d3, d2, d1] :=
      (MongoDB.sortDesc_perm store).trans hst
    have hne3 : List.Pairwise (fun a b : StoredDoc =>
        a.doc.timestamp ≠ b.doc.timestamp) [d3, d2, d1] := by
      refine List.Pairwise.cons (fun b hb => ?_)
        (List.Pairwise.cons (fun b hb => ?_)
          (List.Pairwise.cons (fun b hb => ?_) List.Pairwise.nil))
      · rcases List.mem_cons.mp hb with h | h
        · subst h; omega
        · rcases List.mem_singleton.mp h with h2
          subst h2; omega
      · rcases List.mem_singleton.mp hb with h2
        subst h2; omega
      · cases hb
    have hsort3 : List.Sorted MongoDB.tsGT [d3, d2, d1] := by
      refine List.Pairwise.cons (fun b hb => ?_)
        (List.Pairwise.cons (fun b hb => ?_)
          (List.Pairwise.cons (fun b hb => ?_) List.Pairwise.nil))
      · rcases List.mem_cons.mp hb with h | h
        · subst h; simp only [MongoDB.tsGT]; omega
        · rcases List.mem_singleton.mp h with h2
          subst h2; simp only [MongoDB.tsGT]; omega
      · rcases List.mem_singleton.mp hb with h2
        subst h2; simp only [MongoDB.tsGT]; omega
      · cases hb
    have hnec : List.Pairwise (fun a b : StoredDoc =>
        a.doc.timestamp ≠ b.doc.timestamp) (MongoDB.sortDesc store) :=
      (hperm.pairwise_iff fun h => h.symm).mpr hne3
    have hstrict : List.Sorted MongoDB.tsGT (MongoDB.sortDesc store) :=
      MongoDB.sorted_strict _ (MongoDB.sortDesc_sorted store) hnec
    have heq : MongoDB.sortDesc store = [d3, d2, d1] :=
      List.eq_of_perm_of_sorted hperm hstrict hsort3
    have hvall : ∀ d ∈ MongoDB.sortDesc store, d.valid = true := by
      intro d hd
      rw [heq] at hd
      rcases List.mem_cons.mp hd with h | h
      · rw [h]; exact hv3
      · rcases List.mem_cons.mp h with h2 | h2
        · rw [h2]; exact hv2
        · rw [List.mem_singleton.mp h2]; exact hv1
    have heval := MongoDB.get_all_noFault_eq (MongoDB.mkReady store oid now (none :: rest))
        "embedded-statistics-tracking-dev" 5 1 rest rfl rfl rfl rfl rfl rfl
    simp only [MongoDB.mkReady] at heval
    rw [MongoDB.translateAllLog_ok _ _ hvall, heq] at heval
    simp only [List.map_cons, List.map_nil] at heval
    simp only [MongoDB.mkReady]
    exact ⟨_, heval⟩
  · intro store oid now data rest hv hts
    have hins := MongoDB.insert_noFault_eq store oid now data (none :: rest)
    refine ⟨by rw [hins], MongoDB.natToString_ne_empty oid, ?_⟩
    rw [hins]
    have hmem : (⟨oid, MongoDB.buildDoc data now, true⟩ : StoredDoc) ∈
        store ++ [⟨oid, MongoDB.buildDoc data now, true⟩] := by simp
    have hmax : ∀ d ∈ store ++ [(⟨oid, MongoDB.buildDoc data now, true⟩ : StoredDoc)],
        d ≠ ⟨oid, MongoDB.buildDoc data now, true⟩ →
        d.doc.timestamp < (MongoDB.buildDoc data now).timestamp := by
      intro d hd hne
      rcases List.mem_append.mp hd with h | h
      · exact hts d h
      · exact absurd (List.mem_singleton.mp h) hne
    obtain ⟨t, hhead⟩ := MongoDB.sortDesc_head_of_strict_max
      (store ++ [⟨oid, MongoDB.buildDoc data now, true⟩])
      ⟨oid, MongoDB.buildDoc data now, true⟩ hmem hmax
    have hvall : ∀ d ∈ MongoDB.sortDesc
        (store ++ [(⟨oid, MongoDB.buildDoc data now, true⟩ : StoredDoc)]),
        d.valid = true := by
      intro d hd
      rcases List.mem_append.mp (MongoDB.mem_sortDesc.mp hd) with h | h
      · exact hv d h
      · rw [List.mem_singleton.mp h]
    have heval := MongoDB.get_all_noFault_eq
        ({ MongoDB.mkReady (store ++ [⟨oid, MongoDB.buildDoc data now, true⟩])
            (oid + 1) (now + 1) (none :: rest) with
           insertCalls := 1, netCalls := 1, insertLog := [MongoDB.buildDoc data now] })
        "embedded-statistics-tracking-dev" 5 1 rest rfl rfl rfl rfl rfl rfl
    simp only [MongoDB.mkReady] at heval
    rw [MongoDB.translateAllLog_ok _ _ (by simpa using hvall)] at heval
    rw [show MongoDB.sortDesc (store ++ [(⟨oid, MongoDB.buildDoc data now, true⟩ : StoredDoc)])
        = ⟨oid, MongoDB.buildDoc data now, true⟩ :: t from hhead] at heval
    simp only [List.map_cons] at heval
    rw [show MongoDB.outDoc ⟨oid, MongoDB.buildDoc data now, true⟩ =
      { id := some (toString oid), timestamp := now,
        temperature := data.temperature, humidity := data.humidity,
        voc := data.voc, light := data.light, sound := data.sound,
        accelerometer := data.accelerometer,
        gyroscope := data.gyroscope } from rfl] at heval
    simp only [MongoDB.mkReady]
    exact ⟨_, _, heval⟩

theorem C4_list_sorted_translated_witness :
    ∃ s2, MongoDB.get_all_sensor_data (MongoDB.mkReady
        [⟨10, ⟨1, 0, 0, 0, 0, 0, ⟨0, 0, 0⟩, ⟨0, 0, 0⟩⟩, true⟩,
         ⟨30, ⟨3, 0, 0, 0, 0, 0, ⟨0, 0, 0⟩, ⟨0, 0, 0⟩⟩, true⟩,
         ⟨20, ⟨2, 0, 0, 0, 0, 0, ⟨0, 0, 0⟩, ⟨0, 0, 0⟩⟩, true⟩] 40 99 (none :: [])) =
      (.ok [MongoDB.outDoc ⟨30, ⟨3, 0, 0, 0, 0, 0, ⟨0, 0, 0⟩, ⟨0, 0, 0⟩⟩, true⟩,
            MongoDB.outDoc ⟨20, ⟨2, 0, 0, 0, 0, 0, ⟨0, 0, 0⟩, ⟨0, 0, 0⟩⟩, true⟩,
            MongoDB.outDoc ⟨10, ⟨1, 0, 0, 0, 0, 0, ⟨0, 0, 0⟩, ⟨0, 0, 0⟩⟩, true⟩], s2) :=
  C4_list_sorted_translated.2.1
    ⟨10, ⟨1, 0, 0, 0, 0, 0, ⟨0, 0, 0⟩, ⟨0, 0, 0⟩⟩, true⟩
    ⟨20, ⟨2, 0, 0, 0, 0, 0, ⟨0, 0, 0⟩, ⟨0, 0, 0⟩⟩, true⟩
    ⟨30, ⟨3, 0, 0, 0, 0, 0, ⟨0, 0, 0⟩, ⟨0, 0, 0⟩⟩, true⟩
    [⟨10, ⟨1, 0, 0, 0, 0, 0, ⟨0, 0, 0⟩, ⟨0, 0, 0⟩⟩, true⟩,
     ⟨30, ⟨3, 0, 0, 0, 0, 0, ⟨0, 0, 0⟩, ⟨0, 0, 0⟩⟩, true⟩,
     ⟨20, ⟨2, 0, 0, 0, 0, 0, ⟨0, 0, 0⟩, ⟨0, 0, 0⟩⟩, true⟩]
    40 99 [] (by decide) rfl rfl rfl (by decide) (by decide)

/-! ### Claim C3: invariant proofs for the interleaving model -/

theorem set_lookup {l : List TPc} {i j : Nat} {x pc : TPc}
    (h : (l.set i x)[j]? = some pc) : (j = i ∧ pc = x) ∨ (j ≠ i ∧ l[j]? = some pc) := by
  by_cases hij : j = i
  · subst hij
    have hlt : j < l.length := by
      have h2 := (List.getElem?_eq_some_iff.mp h).1
      simpa using h2
    rw [List.getElem?_set_self hlt] at h
    exact Or.inl ⟨rfl, (Option.some_inj.mp h).symm⟩
  · rw [List.getElem?_set_ne (fun he => hij he.symm)] at h
    exact Or.inr ⟨hij, h⟩

theorem cinv_init (n : Nat) : cinv (cinit n) := by
  refine ⟨?_, Nat.zero_le 1, ?_, ?_, ?_⟩
  · intro i h
    simp only [cinit, List.getElem?_replicate] at h
    split at h <;> simp_all
  · constructor <;> intro h <;> simp [cinit] at h
  · intro i h
    simp only [cinit, List.getElem?_replicate] at h
    split at h <;> simp_all
  · intro i h
    simp only [cinit, List.getElem?_replicate] at h
    split at h <;> simp_all

theorem cstep_none (c : CConfig) (i : Nat) (hp : c.pcs[i]? = none) : cstep c i = c := by
  unfold cstep
  rw [hp]

theorem cstep_doneEq (c : CConfig) (i : Nat) (hp : c.pcs[i]? = some TPc.done) :
    cstep c i = c := by
  unfold cstep
  rw [hp]

theorem cstep_release (c : CConfig) (i : Nat) (hp : c.pcs[i]? = some TPc.inConnect) :
    cstep c i = { c with pcs := c.pcs.set i TPc.done, lockHolder := none } := by
  unfold cstep
  rw [hp]

theorem cstep_fastPath (c : CConfig) (i : Nat) (hp : c.pcs[i]? = some TPc.start)
    (hh : c.handle = true) :
    cstep c i = { c with pcs := c.pcs.set i TPc.done } := by
  unfold cstep
  rw [hp]
  dsimp only
  rw [if_pos hh]

theorem cstep_goWait (c : CConfig) (i k : Nat) (hp : c.pcs[i]? = some TPc.start)
    (hh : c.handle = false) (hl : c.lockHolder = some k) :
    cstep c i = { c with pcs := c.pcs.set i TPc.waiting } := by
  unfold cstep
  rw [hp]
  dsimp only
  rw [if_neg (by simp [hh]), hl]

theorem cstep_startAcquire (c : CConfig) (i : Nat) (hp : c.pcs[i]? = some TPc.start)
    (hh : c.handle = false) (hl : c.lockHolder = none) :
    cstep c i = acquireStep c i := by
  unfold cstep
  rw [hp]
  dsimp only
  rw [if_neg (by simp [hh]), hl]

theorem cstep_stillWait (c : CConfig) (i k : Nat) (hp : c.pcs[i]? = some TPc.waiting)
    (hl : c.lockHolder = some k) :
    cstep c i = c := by
  unfold cstep
  rw [hp]
  dsimp only
  rw [hl]

theorem cstep_wakeAcquire (c : CConfig) (i : Nat) (hp : c.pcs[i]? = some TPc.waiting)
    (hl : c.lockHolder = none) :
    cstep c i = acquireStep c i := by
  unfold cstep
  rw [hp]
  dsimp only
  rw [hl]

theorem acquireStep_inv (c : CConfig) (i : Nat) (h : cinv c)
    (hl : c.lockHolder = none) :
    cinv (acquireStep c i) := by
  obtain ⟨h1, h2, h3, h4, h5⟩ := h
  unfold acquireStep
  by_cases hh : c.handle = true
  · rw [if_pos hh]
    refine ⟨?_, h2, h3, ?_, fun j hj => hh⟩
    · intro j hj
      rcases set_lookup hj with ⟨_, hpc⟩ | ⟨_, hj2⟩
      · cases hpc
      · exact h1 j hj2
    · intro j hj
      rcases set_lookup hj with ⟨_, hpc⟩ | ⟨_, hj2⟩
      · cases hpc
      · exact h4 j hj2
  · rw [if_neg hh]
    have hh2 : c.handle = false := by simpa using hh
    have hc0 : c.connects = 0 := by
      have hne : c.connects ≠ 1 := fun he => by rw [h3.mpr he] at hh2; cases hh2
      omega
    refine ⟨?_, by simp; omega, by simp [hc0], fun j hj => rfl, fun j hj => rfl⟩
    · intro j hj
      rcases set_lookup hj with ⟨hji, _⟩ | ⟨_, hj2⟩
      · simp [hji]
      · rw [h1 j hj2] at hl; cases hl

theorem cinv_step (c : CConfig) (i : Nat) (h : cinv c) : cinv (cstep c i) := by
  obtain ⟨h1, h2, h3, h4, h5⟩ := h
  rcases hp : c.pcs[i]? with _ | pc
  · rw [cstep_none c i hp]
    exact ⟨h1, h2, h3, h4, h5⟩
  cases pc with
  | done =>
    rw [cstep_doneEq c i hp]
    exact ⟨h1, h2, h3, h4, h5⟩
  | inConnect =>
    rw [cstep_release c i hp]
    refine ⟨?_, h2, h3, ?_, ?_⟩
    · intro j hj
      rcases set_lookup hj with ⟨_, hpc⟩ | ⟨hij, hj2⟩
      · cases hpc
      · have hij2 := (h1 i hp).symm.trans (h1 j hj2)
        injection hij2 with hij3
        exact absurd hij3.symm hij
    · intro j hj
      rcases set_lookup hj with ⟨_, hpc⟩ | ⟨_, hj2⟩
      · cases hpc
      · exact h4 j hj2
    · intro j hj
      rcases set_lookup hj with ⟨hji, _⟩ | ⟨_, hj2⟩
      · exact h4 i hp
      · exact h5 j hj2
  | start =>
    by_cases hh : c.handle = true
    · rw [cstep_fastPath c i hp hh]
      refine ⟨?_, h2, h3, ?_, fun j hj => hh⟩
      · intro j hj
        rcases set_lookup hj with ⟨_, hpc⟩ | ⟨_, hj2⟩
        · cases hpc
        · exact h1 j hj2
      · intro j hj
        rcases set_lookup hj with ⟨_, hpc⟩ | ⟨_, hj2⟩
        · cases hpc
        · exact h4 j hj2
    · have hh2 : c.handle = false := by simpa using hh
      rcases hl : c.lockHolder with _ | k
      · rw [cstep_startAcquire c i hp hh2 hl]
        exact acquireStep_inv c i ⟨h1, h2, h3, h4, h5⟩ hl
      · rw [cstep_goWait c i k hp hh2 hl]
        refine ⟨?_, h2, h3, ?_, ?_⟩
        · intro j hj
          rcases set_lookup hj with ⟨_, hpc⟩ | ⟨_, hj2⟩
          · cases hpc
          · exact h1 j hj2
        · intro j hj
          rcases set_lookup hj with ⟨_, hpc⟩ | ⟨_, hj2⟩
          · cases hpc
          · exact h4 j hj2
        · intro j hj
          rcases set_lookup hj with ⟨_, hpc⟩ | ⟨_, hj2⟩
          · cases hpc
          · exact h5 j hj2
  | waiting =>
    rcases hl : c.lockHolder with _ | k
    · rw [cstep_wakeAcquire c i hp hl]
      exact acquireStep_inv c i ⟨h1, h2, h3, h4, h5⟩ hl
    · rw [cstep_stillWait c i k hp hl]
      exact ⟨h1, h2, h3, h4, h5⟩

theorem cinv_run (c : CConfig) (sched : List Nat) (h : cinv c) : cinv (crun c sched) := by
  induction sched generalizing c with
  | nil => exact h
  | cons i rest ih => exact ih _ (cinv_step c i h)

theorem acquireStep_length (c : CConfig) (i : Nat) :
    (acquireStep c i).pcs.length = c.pcs.length := by
  unfold acquireStep
  split <;> simp

theorem cstep_length (c : CConfig) (i : Nat) : (cstep c i).pcs.length = c.pcs.length := by
  rcases hp : c.pcs[i]? with _ | pc
  · rw [cstep_none c i hp]
  · cases pc with
    | done => rw [cstep_doneEq c i hp]
    | inConnect => rw [cstep_release c i hp]; simp
    | start =>
      by_cases hh : c.handle = true
      · rw [cstep_fastPath c i hp hh]; simp
      · have hh2 : c.handle = false := by simpa using hh
        rcases hl : c.lockHolder with _ | k
        · rw [cstep_startAcquire c i hp hh2 hl, acquireStep_length]
        · rw [cstep_goWait c i k hp hh2 hl]; simp
    | waiting =>
      rcases hl : c.lockHolder with _ | k
      · rw [cstep_wakeAcquire c i hp hl, acquireStep_length]
      · rw [cstep_stillWait c i k hp hl]

theorem crun_length (c : CConfig) (sched : List Nat) :
    (crun c sched).pcs.length = c.pcs.length := by
  induction sched generalizing c with
  | nil => rfl
  | cons i rest ih =>
    show (crun (cstep c i) rest).pcs.length = c.pcs.length
    rw [ih, cstep_length]

/-- **C3**: for every interleaving (schedule) of `n` concurrent
`ensure_connected()` calls issued before any connection exists, at most
one task is inside the connect sequence at any reachable point (the
`ConnectionLock` holder), and when every caller has returned, exactly one
underlying connect sequence has executed and the handle is set — every
caller other than the connector either took the fast path or waited on
the lock and re-validated instead of connecting again. -/
theorem C3_concurrent_single_connect (n : Nat) (sched : List Nat) :
    (∀ i j : Nat, (crun (cinit n) sched).pcs[i]? = some TPc.inConnect →
      (crun (cinit n) sched).pcs[j]? = some TPc.inConnect → i = j) ∧
    (0 < n →
      (∀ pc ∈ (crun (cinit n) sched).pcs, pc = TPc.done) →
      (crun (cinit n) sched).connects = 1 ∧
      (crun (cinit n) sched).handle = true) := by
  obtain ⟨h1, h2, h3, h4, h5⟩ := cinv_run (cinit n) sched (cinv_init n)
  constructor
  · intro i j hi hj
    have h := (h1 i hi).symm.trans (h1 j hj)
    injection h
  · intro hn hdone
    have hlen : (crun (cinit n) sched).pcs.length = n := by
      rw [crun_length]
      simp [cinit]
    obtain ⟨pc0, h0⟩ : ∃ pc0, (crun (cinit n) sched).pcs[0]? = some pc0 := by
      rcases hx : (crun (cinit n) sched).pcs[0]? with _ | pc0
      · rw [List.getElem?_eq_none_iff, hlen] at hx
        omega
      · exact ⟨pc0, rfl⟩
    have hmem : pc0 ∈ (crun (cinit n) sched).pcs := List.getElem?_mem h0
    have hd : pc0 = TPc.done := hdone pc0 hmem
    have hh : (crun (cinit n) sched).handle = true := h5 0 (by rw [h0, hd])
    exact ⟨h3.mp hh, hh⟩

theorem C3_concurrent_single_connect_witness :
    (crun (cinit 2) [0, 1, 0]).connects = 1 ∧ (crun (cinit 2) [0, 1, 0]).handle = true :=
  (C3_concurrent_single_connect 2 [0, 1, 0]).2 (by decide) (by decide)
